import Mathlib

/-!
Verification of the JaxMARL-minimal-information repository.

The development shallowly embeds the two source files:
  * `src/baselines/IPPO/ippo_ff_overcooked_oracle_params.py` (the IPPO trainer), and
  * `src/smax/environments/mpe/simple_push.py` (the particle environment),
and proves properties of the embedded definitions.

Modelling conventions:
  * JAX float arrays are modelled over `ℚ` (exact arithmetic standing in for
    float32); transcendental primitives (`jnp.exp`, the square root inside
    `jnp.std` and `jnp.linalg.norm`) are abstracted as function parameters,
    since no claim depends on their analytic properties.
  * `jax.lax.scan` is modelled by explicit structural recursion
    (`lax_scan_unit` for `xs=None` with a length, `lax_scan_list` for a list
    of inputs, `lax_scan_rev` for `reverse=True`).
  * Vectorisation over the `NUM_ENVS` axis is modelled by `List`s.
  * PRNG keys and samplers are abstract parameters; `jax.random.uniform`'s
    affine placement of a unit sample is modelled explicitly.
-/

set_option autoImplicit false

namespace JaxMarl

/-! ### Generic helpers -/

/-- Numeric coercion of a boolean, as performed by JAX when a bool array
enters arithmetic such as `1 - done`. -/
def b2q (b : Bool) : ℚ := if b then 1 else 0

/-- Embedding of `jax.lax.scan(f, init, None, length=n)`: iterate a step function `n`
times, collecting the per-step outputs in order. -/
def lax_scan_unit {C Y : Type} (f : C → C × Y) : C → ℕ → C × List Y
  | c, 0 => (c, [])
  | c, n + 1 =>
    let s := f c
    let r := lax_scan_unit f s.1 n
    (r.1, s.2 :: r.2)

/-- Embedding of `jax.lax.scan(f, init, xs)`: fold over the leading axis of `xs`,
collecting the per-step outputs in order. -/
def lax_scan_list {C X Y : Type} (f : C → X → C × Y) : C → List X → C × List Y
  | c, [] => (c, [])
  | c, x :: xs =>
    let s := f c x
    let r := lax_scan_list f s.1 xs
    (r.1, s.2 :: r.2)

/-- Embedding of `jax.lax.scan(f, init, xs, reverse=True)`: process `xs` from its last
element backwards; the collected outputs keep the order of `xs`. -/
def lax_scan_rev {C X Y : Type} (f : C → X → C × Y) : C → List X → C × List Y
  | c, [] => (c, [])
  | c, x :: xs =>
    let r := lax_scan_rev f c xs
    let s := f r.1 x
    (s.1, s.2 :: r.2)

theorem lax_scan_unit_length {C Y : Type} (f : C → C × Y) (c : C) (n : ℕ) :
    (lax_scan_unit f c n).2.length = n := by
  induction n generalizing c with
  | zero => rfl
  | succ n ih => simp [lax_scan_unit, ih]

theorem lax_scan_rev_length {C X Y : Type} (f : C → X → C × Y) (c : C)
    (xs : List X) : (lax_scan_rev f c xs).2.length = xs.length := by
  induction xs with
  | nil => rfl
  | cons x xs ih => simp [lax_scan_rev, ih]

/-! ### `_calculate_gae` (C1) -/

/-- The per-cell data of one trajectory transition consumed by
`_calculate_gae` (fields `done`, `value`, `reward` of `Transition`); the GAE
arithmetic is elementwise, so one array cell is modelled. -/
structure GTrans where
  done : Bool
  value : ℚ
  reward : ℚ

/-- Embedding of `_get_advantages` (the scanned body inside `_calculate_gae`): carry is
`(gae, next_value)`; computes the TD error `delta` and the GAE recursion,
returning the new carry `(gae, value)` and the output `gae`. -/
def getAdvantages (GAMMA GAE_LAMBDA : ℚ) (carry : ℚ × ℚ) (t : GTrans) :
    (ℚ × ℚ) × ℚ :=
  let gae := carry.1
  let next_value := carry.2
  let delta := t.reward + GAMMA * next_value * (1 - b2q t.done) - t.value
  let gae' := delta + GAMMA * GAE_LAMBDA * (1 - b2q t.done) * gae
  ((gae', t.value), gae')

/-- Embedding of `_calculate_gae`: reverse scan of `_get_advantages` over the trajectory
with initial carry `(zeros_like(last_val), last_val)`, returning
`(advantages, advantages + traj_batch.value)`. -/
def calculateGae (GAMMA GAE_LAMBDA : ℚ) (traj_batch : List GTrans)
    (last_val : ℚ) : List ℚ × List ℚ :=
  let advantages :=
    (lax_scan_rev (getAdvantages GAMMA GAE_LAMBDA) (0, last_val) traj_batch).2
  (advantages, List.zipWith (· + ·) advantages (traj_batch.map GTrans.value))

/-- The spec's description of GAE, written as a direct recursion over the
transitions: `A_t = delta_t + GAMMA * GAE_LAMBDA * (1 - done_t) * A_{t+1}`
with `delta_t = reward_t + GAMMA * next_value_t * (1 - done_t) - value_t`,
where `next_value_t` is the value of transition `t+1` (the final value
estimate at the end of the trajectory) and `A` past the end is zero. -/
def gaeSpec (GAMMA GAE_LAMBDA last_val : ℚ) : List GTrans → List ℚ
  | [] => []
  | t :: rest =>
    let tail := gaeSpec GAMMA GAE_LAMBDA last_val rest
    let next_value := match rest with
      | [] => last_val
      | u :: _ => u.value
    let nextA := match tail with
      | [] => (0 : ℚ)
      | a :: _ => a
    let delta := t.reward + GAMMA * next_value * (1 - b2q t.done) - t.value
    (delta + GAMMA * GAE_LAMBDA * (1 - b2q t.done) * nextA) :: tail

/-- The reverse scan of `_get_advantages` computes exactly `gaeSpec`, and
its final carry holds the head advantage and head value. -/
theorem lax_scan_rev_getAdvantages (GAMMA GAE_LAMBDA last_val : ℚ)
    (traj : List GTrans) :
    lax_scan_rev (getAdvantages GAMMA GAE_LAMBDA) (0, last_val) traj
      = (((gaeSpec GAMMA GAE_LAMBDA last_val traj).headD 0,
          (traj.map GTrans.value).headD last_val),
         gaeSpec GAMMA GAE_LAMBDA last_val traj) := by
  induction traj with
  | nil => rfl
  | cons t rest ih =>
    simp only [lax_scan_rev, ih, getAdvantages, gaeSpec, List.map_cons]
    cases rest with
    | nil => simp [gaeSpec]
    | cons u rest' =>
      simp only [List.map_cons, List.headD_cons]
      cases h : gaeSpec GAMMA GAE_LAMBDA last_val (u :: rest') with
      | nil => simp [gaeSpec] at h
      | cons a tl => simp

/-- C1: for every trajectory batch and final value estimate,
`_calculate_gae` computes advantages by the reverse-order recursion
`A_t = delta_t + GAMMA * GAE_LAMBDA * (1 - done_t) * A_{t+1}` with
`delta_t = reward_t + GAMMA * next_value * (1 - done_t) - value_t` and
initial carry zero, returns `(advantages, advantages + values)`, and both
returned arrays have the same leading time dimension as the trajectory. -/
theorem calculateGae_matches_gae_recursion (GAMMA GAE_LAMBDA : ℚ)
    (traj_batch : List GTrans) (last_val : ℚ) :
    calculateGae GAMMA GAE_LAMBDA traj_batch last_val
      = (gaeSpec GAMMA GAE_LAMBDA last_val traj_batch,
         List.zipWith (· + ·) (gaeSpec GAMMA GAE_LAMBDA last_val traj_batch)
           (traj_batch.map GTrans.value))
    ∧ (calculateGae GAMMA GAE_LAMBDA traj_batch last_val).1.length
        = traj_batch.length
    ∧ (calculateGae GAMMA GAE_LAMBDA traj_batch last_val).2.length
        = traj_batch.length := by
  have hmain :
      calculateGae GAMMA GAE_LAMBDA traj_batch last_val
        = (gaeSpec GAMMA GAE_LAMBDA last_val traj_batch,
           List.zipWith (· + ·) (gaeSpec GAMMA GAE_LAMBDA last_val traj_batch)
             (traj_batch.map GTrans.value)) := by
    unfold calculateGae
    rw [lax_scan_rev_getAdvantages]
  have hlen : (gaeSpec GAMMA GAE_LAMBDA last_val traj_batch).length
      = traj_batch.length := by
    clear hmain
    induction traj_batch with
    | nil => rfl
    | cons t rest ih => simp [gaeSpec, ih]
  refine ⟨hmain, ?_, ?_⟩
  · rw [hmain]; exact hlen
  · rw [hmain]
    simp [List.length_zipWith, hlen]

/-! ### `_loss_fn` (C2)

The network application `network.apply(params, obs)` is abstracted as a
function `applyFn : P → List ℚ → List ℚ × ℚ` returning the categorical
logits and the value for one observation row; `jnp.exp`, `jnp.log` (inside
distrax's categorical) and the square root inside `jnp.std` are abstract
parameters `jexp`, `jlog`, `jsqrt`. -/

/-- One row of the flattened minibatch consumed by `_loss_fn` (the
`Transition` fields it reads). -/
structure LRow where
  obs : List ℚ
  action : ℕ
  value : ℚ
  log_prob : ℚ

/-- The hyperparameters read by `_loss_fn` from `config`. -/
structure PPOLossConfig where
  CLIP_EPS : ℚ
  VF_COEF : ℚ
  ENT_COEF : ℚ

/-- Embedding of `jnp.mean` of a 1-D array. -/
def jmean (l : List ℚ) : ℚ := l.sum / l.length

/-- Embedding of `jnp.std` of a 1-D array: square root of the mean squared deviation,
with the square root abstracted. -/
def jstd (jsqrt : ℚ → ℚ) (l : List ℚ) : ℚ :=
  jsqrt (jmean (l.map fun v => (v - jmean l) ^ 2))

/-- Embedding of `jnp.clip(x, lo, hi)` / `.clip(lo, hi)`. -/
def jclip (x lo hi : ℚ) : ℚ := min (max x lo) hi

/-- Embedding of `distrax.Categorical(logits).log_prob(a)`:
`logits[a] - log(sum(exp(logits)))`. -/
def catLogProb (jexp jlog : ℚ → ℚ) (logits : List ℚ) (a : ℕ) : ℚ :=
  logits.getD a 0 - jlog ((logits.map jexp).sum)

/-- Embedding of `distrax.Categorical(logits).entropy()`:
`log Z - (sum_i logits_i * exp logits_i) / Z` with `Z = sum(exp(logits))`. -/
def catEntropy (jexp jlog : ℚ → ℚ) (logits : List ℚ) : ℚ :=
  let Z := (logits.map jexp).sum
  jlog Z - (List.zipWith (fun l e => l * e) logits (logits.map jexp)).sum / Z

/-- Embedding of `_loss_fn(params, traj_batch, gae, targets)`: recomputes the network
outputs, the clipped value loss, the clipped-ratio actor loss over the
normalized advantages, and the entropy bonus, returning
`(total_loss, (value_loss, loss_actor, entropy))`. -/
def loss_fn {P : Type} (cfg : PPOLossConfig) (applyFn : P → List ℚ → List ℚ × ℚ)
    (jexp jlog jsqrt : ℚ → ℚ) (params : P) (traj_batch : List LRow)
    (gae targets : List ℚ) : ℚ × (ℚ × ℚ × ℚ) :=
  let outs := traj_batch.map fun r => applyFn params r.obs
  let value := outs.map Prod.snd
  let log_prob :=
    List.zipWith (fun r o => catLogProb jexp jlog o.1 r.action) traj_batch outs
  let value_pred_clipped :=
    List.zipWith
      (fun r v => r.value + jclip (v - r.value) (-cfg.CLIP_EPS) cfg.CLIP_EPS)
      traj_batch value
  let value_losses := List.zipWith (fun v t => (v - t) ^ 2) value targets
  let value_losses_clipped :=
    List.zipWith (fun v t => (v - t) ^ 2) value_pred_clipped targets
  let value_loss :=
    (1 / 2 : ℚ) * jmean (List.zipWith max value_losses value_losses_clipped)
  let ratio :=
    List.zipWith (fun lp r => jexp (lp - r.log_prob)) log_prob traj_batch
  let gaeN :=
    gae.map fun g => (g - jmean gae) / (jstd jsqrt gae + 1 / 100000000)
  let loss_actor1 := List.zipWith (· * ·) ratio gaeN
  let loss_actor2 :=
    List.zipWith
      (fun r g => jclip r (1 - cfg.CLIP_EPS) (1 + cfg.CLIP_EPS) * g) ratio gaeN
  let loss_actor :=
    jmean (List.zipWith (fun a b => -(min a b)) loss_actor1 loss_actor2)
  let entropy := jmean (outs.map fun o => catEntropy jexp jlog o.1)
  let total_loss :=
    loss_actor + cfg.VF_COEF * value_loss - cfg.ENT_COEF * entropy
  (total_loss, (value_loss, loss_actor, entropy))

/-- Spec-side definition (from the claim's words): advantages normalized to
zero mean and unit standard deviation plus 1e-8. -/
def normalizedAdvSpec (jsqrt : ℚ → ℚ) (gae : List ℚ) : List ℚ :=
  gae.map fun g => (g - jmean gae) / (jstd jsqrt gae + 1 / 100000000)

/-- Spec-side definition (from the claim's words): the clipped-ratio
surrogate actor loss, the mean over the minibatch of the negated minimum of
ratio times normalized advantage and of the ratio clipped to
`[1 - CLIP_EPS, 1 + CLIP_EPS]` times normalized advantage. -/
def actorLossSpec (cfg : PPOLossConfig) (ratios normAdv : List ℚ) : ℚ :=
  jmean (List.zipWith
    (fun r g =>
      -(min (r * g) (jclip r (1 - cfg.CLIP_EPS) (1 + cfg.CLIP_EPS) * g)))
    ratios normAdv)

/-- Spec-side definition (from the claim's words): the clipped value loss,
0.5 times the mean of the elementwise maximum of the squared errors of the
raw and of the clipped value predictions against the targets. -/
def valueLossSpec (value value_clipped targets : List ℚ) : ℚ :=
  (1 / 2 : ℚ) * jmean (List.zipWith max
    (List.zipWith (fun v t => (v - t) ^ 2) value targets)
    (List.zipWith (fun v t => (v - t) ^ 2) value_clipped targets))

/-- Fusing two zips over the same index range. -/
theorem zipWith_zipWith_same {α β γ δ ε : Type} (f : γ → δ → ε) (g : α → β → γ)
    (h : α → β → δ) (l₁ : List α) (l₂ : List β) :
    List.zipWith f (List.zipWith g l₁ l₂) (List.zipWith h l₁ l₂)
      = List.zipWith (fun a b => f (g a b) (h a b)) l₁ l₂ := by
  induction l₁ generalizing l₂ with
  | nil => rfl
  | cons a l₁ ih => cases l₂ with
    | nil => rfl
    | cons b l₂ => simp [List.zipWith, ih]

/-- C2: `_loss_fn`'s total loss equals the clipped-ratio surrogate actor
loss over the normalized advantages, plus `VF_COEF` times the clipped value
loss, minus `ENT_COEF` times the mean policy entropy. -/
theorem loss_fn_total_loss {P : Type} (cfg : PPOLossConfig)
    (applyFn : P → List ℚ → List ℚ × ℚ) (jexp jlog jsqrt : ℚ → ℚ) (params : P)
    (traj_batch : List LRow) (gae targets : List ℚ) :
    (loss_fn cfg applyFn jexp jlog jsqrt params traj_batch gae targets).1
      = actorLossSpec cfg
          (List.zipWith
            (fun lp r => jexp (lp - r.log_prob))
            (List.zipWith
              (fun r o => catLogProb jexp jlog o.1 r.action) traj_batch
              (traj_batch.map fun r => applyFn params r.obs))
            traj_batch)
          (normalizedAdvSpec jsqrt gae)
        + cfg.VF_COEF * valueLossSpec
            ((traj_batch.map fun r => applyFn params r.obs).map Prod.snd)
            (List.zipWith
              (fun r v =>
                r.value + jclip (v - r.value) (-cfg.CLIP_EPS) cfg.CLIP_EPS)
              traj_batch
              ((traj_batch.map fun r => applyFn params r.obs).map Prod.snd))
            targets
        - cfg.ENT_COEF * jmean
            ((traj_batch.map fun r => applyFn params r.obs).map
              fun o => catEntropy jexp jlog o.1) := by
  unfold loss_fn actorLossSpec valueLossSpec normalizedAdvSpec
  dsimp only
  rw [zipWith_zipWith_same]

/-! ### `ActorCritic` (C5)

A flax `Dense` layer is a weight matrix and a bias vector (the kernel is
stored transposed: one weight row per output feature).  `nn.tanh` is an
abstract parameter `tanhQ`; `nn.relu` is `max · 0`. -/

/-- Parameters of one `nn.Dense` layer. -/
structure DenseParams where
  weight : List (List ℚ)
  bias : List ℚ

/-- Dot product of two vectors. -/
def dot (w x : List ℚ) : ℚ := (List.zipWith (· * ·) w x).sum

/-- Application of a `nn.Dense` layer to an input vector. -/
def dense (p : DenseParams) (x : List ℚ) : List ℚ :=
  List.zipWith (fun w b => dot w x + b) p.weight p.bias

/-- Embedding of `nn.relu`. -/
def reluQ (q : ℚ) : ℚ := max q 0

/-- Embedding of `self.act_fn = nn.relu if self.activation == "relu" else nn.tanh`. -/
def actFn (tanhQ : ℚ → ℚ) (activation : String) : ℚ → ℚ :=
  if activation = "relu" then reluQ else tanhQ

/-- The parameters of `ActorCritic`: the six `nn.Dense` layers created in
`setup`. -/
structure ACParams where
  actor_dense1 : DenseParams
  actor_dense2 : DenseParams
  actor_out : DenseParams
  critic_dense1 : DenseParams
  critic_dense2 : DenseParams
  critic_out : DenseParams

/-- The critic tower of `ActorCritic.__call__` before the squeeze:
`critic_out(act(critic_dense2(act(critic_dense1(x)))))`. -/
def criticSeq (tanhQ : ℚ → ℚ) (activation : String) (p : ACParams)
    (x : List ℚ) : List ℚ :=
  let act := actFn tanhQ activation
  let critic1 := (dense p.critic_dense1 x).map act
  let critic2 := (dense p.critic_dense2 critic1).map act
  dense p.critic_out critic2

/-- Embedding of `ActorCritic.__call__(x)`: the actor tower produces the categorical
logits, the critic tower produces a length-1 vector whose final size-1 axis
is squeezed into the scalar value. -/
def actorCriticCall (tanhQ : ℚ → ℚ) (activation : String) (p : ACParams)
    (x : List ℚ) : List ℚ × ℚ :=
  let act := actFn tanhQ activation
  let actor1 := (dense p.actor_dense1 x).map act
  let actor2 := (dense p.actor_dense2 actor1).map act
  let logits := dense p.actor_out actor2
  (logits, (criticSeq tanhQ activation p x).headD 0)

theorem dense_length (p : DenseParams) (x : List ℚ) :
    (dense p x).length = min p.weight.length p.bias.length := by
  simp [dense, List.length_zipWith]

/-- C5: the logits of `ActorCritic.__call__` depend only on the three actor
layers applied to `x` (unchanged by any change to the critic layers), the
value depends only on the three critic layers applied to `x` (unchanged by
any change to the actor layers), and the value is the scalar obtained by
squeezing the final size-1 axis of the critic tower's output. -/
theorem actorCritic_independent_towers (tanhQ : ℚ → ℚ) (activation : String)
    (x : List ℚ) (p p' q q' : ACParams)
    (hA1 : p.actor_dense1 = p'.actor_dense1)
    (hA2 : p.actor_dense2 = p'.actor_dense2)
    (hA3 : p.actor_out = p'.actor_out)
    (hC1 : q.critic_dense1 = q'.critic_dense1)
    (hC2 : q.critic_dense2 = q'.critic_dense2)
    (hC3 : q.critic_out = q'.critic_out)
    (hw : q.critic_out.weight.length = 1)
    (hb : q.critic_out.bias.length = 1) :
    (actorCriticCall tanhQ activation p x).1
        = (actorCriticCall tanhQ activation p' x).1
    ∧ (actorCriticCall tanhQ activation q x).2
        = (actorCriticCall tanhQ activation q' x).2
    ∧ (criticSeq tanhQ activation q x).length = 1
    ∧ (actorCriticCall tanhQ activation q x).2
        = (criticSeq tanhQ activation q x).getD 0 0 := by
  refine ⟨?_, ?_, ?_, ?_⟩
  · simp only [actorCriticCall, hA1, hA2, hA3]
  · simp only [actorCriticCall, criticSeq, hC1, hC2, hC3]
  · simp [criticSeq, dense_length, hw, hb]
  · simp only [actorCriticCall]
    cases criticSeq tanhQ activation q x with
    | nil => rfl
    | cons a l => rfl

/-- Witness for C5 at concrete parameters: `p` and `p'` share the actor
layers but have different critic layers, `q` and `q'` share the critic
layers but have different actor layers. -/
theorem actorCritic_independent_towers_witness :
    ((⟨⟨[[1]], [0]⟩, ⟨[[1]], [0]⟩, ⟨[[1]], [0]⟩, ⟨[[2]], [0]⟩, ⟨[[2]], [0]⟩,
        ⟨[[2]], [1]⟩⟩ : ACParams).actor_dense1
      = (⟨⟨[[1]], [0]⟩, ⟨[[1]], [0]⟩, ⟨[[1]], [0]⟩, ⟨[[3]], [1]⟩, ⟨[[3]], [1]⟩,
        ⟨[[3]], [2]⟩⟩ : ACParams).actor_dense1)
    ∧ ((actorCriticCall id "tanh"
          ⟨⟨[[1]], [0]⟩, ⟨[[1]], [0]⟩, ⟨[[1]], [0]⟩, ⟨[[2]], [0]⟩, ⟨[[2]], [0]⟩,
            ⟨[[2]], [1]⟩⟩ [1]).1
        = (actorCriticCall id "tanh"
          ⟨⟨[[1]], [0]⟩, ⟨[[1]], [0]⟩, ⟨[[1]], [0]⟩, ⟨[[3]], [1]⟩, ⟨[[3]], [1]⟩,
            ⟨[[3]], [2]⟩⟩ [1]).1) := by
  refine ⟨rfl, ?_⟩
  exact (actorCritic_independent_towers id "tanh" [1]
    ⟨⟨[[1]], [0]⟩, ⟨[[1]], [0]⟩, ⟨[[1]], [0]⟩, ⟨[[2]], [0]⟩, ⟨[[2]], [0]⟩,
      ⟨[[2]], [1]⟩⟩
    ⟨⟨[[1]], [0]⟩, ⟨[[1]], [0]⟩, ⟨[[1]], [0]⟩, ⟨[[3]], [1]⟩, ⟨[[3]], [1]⟩,
      ⟨[[3]], [2]⟩⟩
    ⟨⟨[[5]], [0]⟩, ⟨[[5]], [0]⟩, ⟨[[5]], [0]⟩, ⟨[[2]], [0]⟩, ⟨[[2]], [0]⟩,
      ⟨[[2]], [1]⟩⟩
    ⟨⟨[[7]], [1]⟩, ⟨[[7]], [1]⟩, ⟨[[7]], [1]⟩, ⟨[[2]], [0]⟩, ⟨[[2]], [0]⟩,
      ⟨[[2]], [1]⟩⟩
    rfl rfl rfl rfl rfl rfl rfl rfl).1

/-! ### `simple_push.py` (C7, C9, C10)

Entity positions and velocities are 2-vectors over `ℚ`; the square root
inside `jnp.linalg.norm` is an abstract parameter `jsqrt`.  The per-agent
dictionary keys `"adversary_{i}"` / `"agent_{i}"` are modelled by the tag
type `AgentName` (the format strings are injective tags). -/

/-- A 2-D vector (`dim_p = 2`). -/
abbrev Vec2 := ℚ × ℚ

/-- Componentwise subtraction of 2-vectors. -/
def vsub (a b : Vec2) : Vec2 := (a.1 - b.1, a.2 - b.2)

/-- Embedding of `.flatten()` of an array of 2-vectors. -/
def flat2 (l : List Vec2) : List ℚ := l.flatMap fun v => [v.1, v.2]

/-- Embedding of `jnp.roll(l, shift=k, axis=0)`: element `i` moves to `(i+k) mod n`. -/
def jroll {α : Type} (l : List α) (k : ℕ) : List α :=
  l.rotate ((l.length - k % l.length) % l.length)

/-- Embedding of `jnp.min` of a 1-D array (nonempty in all uses). -/
def jmin (l : List ℚ) : ℚ := l.foldr min (l.headD 0)

/-- Dictionary keys `"adversary_{i}"` and `"agent_{i}"`. -/
inductive AgentName where
  | adversary (i : ℕ)
  | agent (i : ℕ)
deriving DecidableEq

/-- A bound of a `gymnax` `Box` space (`-jnp.inf`, `jnp.inf`, or finite). -/
inductive BoundQ where
  | ninf
  | pinf
  | val (q : ℚ)
deriving DecidableEq

/-- A `gymnax` `Box(low, high, shape)` space. -/
structure BoxQ where
  low : BoundQ
  high : BoundQ
  shape : List ℕ
deriving DecidableEq

/-- The `SimplePushMPE` environment object: constructor arguments plus the
declared action and observation spaces (`dim_c = 2`, `dim_p = 2`). -/
structure PushEnv where
  num_good_agents : ℕ
  num_adversaries : ℕ
  num_landmarks : ℕ
  action_spaces : List (AgentName × BoxQ)
  observation_spaces : List (AgentName × BoxQ)
deriving DecidableEq

/-- Embedding of `num_agents = num_good_agents + num_adversaries`. -/
def PushEnv.num_agents (e : PushEnv) : ℕ := e.num_good_agents + e.num_adversaries

/-- Embedding of `num_entities = num_agents + num_landmarks`. -/
def PushEnv.num_entities (e : PushEnv) : ℕ := e.num_agents + e.num_landmarks

/-- Embedding of `self.adversaries`. -/
def PushEnv.adversaries (e : PushEnv) : List AgentName :=
  (List.range e.num_adversaries).map AgentName.adversary

/-- Embedding of `self.good_agents`. -/
def PushEnv.good_agents (e : PushEnv) : List AgentName :=
  (List.range e.num_good_agents).map AgentName.agent

/-- Embedding of `agents = adversaries + good_agents`. -/
def PushEnv.agents (e : PushEnv) : List AgentName :=
  e.adversaries ++ e.good_agents

/-- The body of `SimplePushMPE.__init__` after its assertion: records the
counts and declares `Box(0.0, 1.0, (5,))` action spaces for every agent,
`(8,)` observation spaces for adversaries and `(19,)` for good agents. -/
def simplePushInit (num_good_agents num_adversaries num_landmarks : ℕ) :
    PushEnv :=
  let adversaries := (List.range num_adversaries).map AgentName.adversary
  let good_agents := (List.range num_good_agents).map AgentName.agent
  let agents := adversaries ++ good_agents
  { num_good_agents := num_good_agents
    num_adversaries := num_adversaries
    num_landmarks := num_landmarks
    action_spaces := agents.map fun a => (a, ⟨.val 0, .val 1, [5]⟩)
    observation_spaces :=
      adversaries.map (fun a => (a, ⟨.ninf, .pinf, [8]⟩))
        ++ good_agents.map (fun a => (a, ⟨.ninf, .pinf, [19]⟩)) }

/-- Embedding of `SimplePushMPE.__init__` (default `num_landmarks=2` in the source):
asserts `num_landmarks == 2` before constructing the environment. -/
def SimplePushMPE (num_good_agents num_adversaries num_landmarks : ℕ) :
    Except String PushEnv :=
  if num_landmarks = 2 then
    .ok (simplePushInit num_good_agents num_adversaries num_landmarks)
  else
    .error "AssertionError: SimplePushMPE only supports 2 landmarks"

/-- The `TargetState` record held by the environment. -/
structure PushState where
  p_pos : List Vec2
  p_vel : List Vec2
  c : List Vec2
  done : List Bool
  step : ℕ
  goal : ℕ

/-- Embedding of `EnvParams` as read by `reset_env` / `get_obs` / `rewards`: these
functions take the parameter record but read none of its physics fields, so
a representative subset is carried. -/
structure PushParams where
  max_steps : ℕ
  damping : ℚ

/-- Embedding of `OBS_COLOUR = concatenate([COLOUR_1, COLOUR_2])`. -/
def OBS_COLOUR : List ℚ := [1/10, 9/10, 1/10] ++ [1/10, 1/10, 9/10]

/-- Embedding of `_common_stats(aidx, state, params)`: landmark positions and (rolled)
other-agent positions and velocities in the agent's reference frame. -/
def common_stats (env : PushEnv) (state : PushState) (aidx : ℕ) :
    List Vec2 × List Vec2 × List Vec2 :=
  let ego := state.p_pos.getD aidx (0, 0)
  let landmark_pos := (state.p_pos.drop env.num_agents).map fun p => vsub p ego
  let other_pos0 := (state.p_pos.take env.num_agents).map fun p => vsub p ego
  let other_vel0 := state.p_vel.take env.num_agents
  let other_pos1 :=
    (jroll other_pos0 (env.num_agents - aidx - 1)).take (env.num_agents - 1)
  let other_vel1 :=
    (jroll other_vel0 (env.num_agents - aidx - 1)).take (env.num_agents - 1)
  (landmark_pos, jroll other_pos1 aidx, jroll other_vel1 aidx)

/-- Embedding of `_good(aidx)` inside `get_obs`. -/
def obsGood (env : PushEnv) (state : PushState) (aidx : ℕ) : List ℚ :=
  let cs := common_stats env state aidx
  let goal_rel_pos :=
    vsub (state.p_pos.getD (state.goal + env.num_agents) (0, 0))
      (state.p_pos.getD aidx (0, 0))
  let agent_colour := (List.replicate 3 (1/4 : ℚ)).set (state.goal + 1) (3/4)
  let vel := state.p_vel.getD aidx (0, 0)
  [vel.1, vel.2] ++ [goal_rel_pos.1, goal_rel_pos.2] ++ agent_colour
    ++ flat2 cs.1 ++ OBS_COLOUR ++ flat2 cs.2.1

/-- Embedding of `_adversary(aidx)` inside `get_obs`. -/
def obsAdversary (env : PushEnv) (state : PushState) (aidx : ℕ) : List ℚ :=
  let cs := common_stats env state aidx
  let vel := state.p_vel.getD aidx (0, 0)
  [vel.1, vel.2] ++ flat2 cs.1 ++ flat2 cs.2.1

/-- Embedding of `SimplePushMPE.get_obs(state, params)`: the per-agent observation
dictionary (adversaries first, then good agents at index
`i + num_adversaries`). -/
def get_obs (env : PushEnv) (state : PushState) (_params : PushParams) :
    List (AgentName × List ℚ) :=
  (List.range env.num_adversaries).map
    (fun i => (AgentName.adversary i, obsAdversary env state i))
  ++ (List.range env.num_good_agents).map
    (fun i => (AgentName.agent i, obsGood env state (i + env.num_adversaries)))

/-- Embedding of `jnp.linalg.norm` of a 2-vector, with the square root abstracted. -/
def vnorm (jsqrt : ℚ → ℚ) (v : Vec2) : ℚ := jsqrt (v.1 ^ 2 + v.2 ^ 2)

/-- Embedding of `_good(aidx)` inside `rewards`. -/
def rewGood (env : PushEnv) (jsqrt : ℚ → ℚ) (state : PushState) (aidx : ℕ) :
    ℚ :=
  -(vnorm jsqrt (vsub (state.p_pos.getD (state.goal + env.num_agents) (0, 0))
      (state.p_pos.getD aidx (0, 0))))

/-- Embedding of `_adversary(aidx)` inside `rewards`. -/
def rewAdversary (env : PushEnv) (jsqrt : ℚ → ℚ) (state : PushState)
    (aidx : ℕ) : ℚ :=
  let goalPos := state.p_pos.getD (state.goal + env.num_agents) (0, 0)
  let agent_dist :=
    ((state.p_pos.take env.num_agents).drop env.num_adversaries).map
      fun p => vsub goalPos p
  let pos_rew := jmin (agent_dist.map (vnorm jsqrt))
  let neg_rew := vnorm jsqrt (vsub goalPos (state.p_pos.getD aidx (0, 0)))
  pos_rew - neg_rew

/-- Embedding of `SimplePushMPE.rewards(state, params)`: the per-agent reward
dictionary. -/
def rewards (env : PushEnv) (jsqrt : ℚ → ℚ) (state : PushState)
    (_params : PushParams) : List (AgentName × ℚ) :=
  (List.range env.num_adversaries).map
    (fun i => (AgentName.adversary i, rewAdversary env jsqrt state i))
  ++ (List.range env.num_good_agents).map
    (fun i => (AgentName.agent i, rewGood env jsqrt state (i + env.num_adversaries)))

/-- Embedding of `jax.random.uniform(key, minval=lo, maxval=hi)`: affine placement of a
unit sample `u ∈ [0, 1)`. -/
def uniformQ (lo hi u : ℚ) : ℚ := lo + (hi - lo) * u

/-- Embedding of `SimplePushMPE.reset_env(key, params)`: agent positions uniform in
`[-1, 1)`, landmark positions uniform in `[-0.9, 0.9)`, zero velocities and
communication, step 0, no dones, goal drawn by
`jax.random.randint(key_g, (), 0, num_landmarks)` (modelled as reduction of
an abstract draw `kg` modulo `num_landmarks`).  `uA i j` / `uL i j` are the
unit samples for coordinate `j` of agent / landmark `i`. -/
def reset_env (env : PushEnv) (uA uL : ℕ → ℕ → ℚ) (kg : ℕ)
    (params : PushParams) : List (AgentName × List ℚ) × PushState :=
  let p_pos :=
    (List.range env.num_agents).map
      (fun i => (uniformQ (-1) 1 (uA i 0), uniformQ (-1) 1 (uA i 1)))
    ++ (List.range env.num_landmarks).map
      (fun i => (uniformQ (-(9/10)) (9/10) (uL i 0),
                 uniformQ (-(9/10)) (9/10) (uL i 1)))
  let state : PushState :=
    { p_pos := p_pos
      p_vel := List.replicate env.num_entities (0, 0)
      c := List.replicate env.num_agents (0, 0)
      done := List.replicate env.num_agents false
      step := 0
      goal := kg % env.num_landmarks }
  (get_obs env state params, state)

/-- C10: the constructor (whose `num_landmarks` parameter defaults to 2)
raises an assertion error for every `num_landmarks` other than 2; with
`num_landmarks = 2` it declares, for any numbers of good agents and
adversaries, a `Box(0.0, 1.0, (5,))` action space per agent, an
8-dimensional observation space per adversary, and a 19-dimensional
observation space per good agent. -/
theorem simplePushMPE_ctor_spec (ng na nl : ℕ) (h : nl ≠ 2) :
    SimplePushMPE ng na nl
        = .error "AssertionError: SimplePushMPE only supports 2 landmarks"
    ∧ SimplePushMPE ng na 2 = .ok (simplePushInit ng na 2)
    ∧ (∀ a ∈ (simplePushInit ng na 2).agents,
        (a, (⟨.val 0, .val 1, [5]⟩ : BoxQ))
          ∈ (simplePushInit ng na 2).action_spaces)
    ∧ (∀ i < na,
        (AgentName.adversary i, (⟨.ninf, .pinf, [8]⟩ : BoxQ))
          ∈ (simplePushInit ng na 2).observation_spaces)
    ∧ (∀ i < ng,
        (AgentName.agent i, (⟨.ninf, .pinf, [19]⟩ : BoxQ))
          ∈ (simplePushInit ng na 2).observation_spaces) := by
  refine ⟨?_, ?_, ?_, ?_, ?_⟩
  · simp [SimplePushMPE, h]
  · simp [SimplePushMPE]
  · intro a ha
    simp only [simplePushInit]
    exact List.mem_map_of_mem (fun a => (a, (⟨.val 0, .val 1, [5]⟩ : BoxQ)))
      (by simpa [PushEnv.agents, PushEnv.adversaries, PushEnv.good_agents,
        simplePushInit] using ha)
  · intro i hi
    simp only [simplePushInit]
    exact List.mem_append_left _
      (List.mem_map_of_mem _
        (List.mem_map_of_mem AgentName.adversary (List.mem_range.mpr hi)))
  · intro i hi
    simp only [simplePushInit]
    exact List.mem_append_right _
      (List.mem_map_of_mem _
        (List.mem_map_of_mem AgentName.agent (List.mem_range.mpr hi)))

/-- Witness for C10 at `num_landmarks = 3` (and one adversary, one good
agent). -/
theorem simplePushMPE_ctor_spec_witness :
    (3 : ℕ) ≠ 2
    ∧ SimplePushMPE 1 1 3
        = .error "AssertionError: SimplePushMPE only supports 2 landmarks" :=
  ⟨by decide, (simplePushMPE_ctor_spec 1 1 3 (by decide)).1⟩

/-- C7: `get_obs` and `rewards` are deterministic functions of the state
and parameter records; in fact they read only the `p_pos`, `p_vel` and
`goal` fields of the state and no field of the parameters, so any two
calls on equal states (and arbitrary parameters) return equal per-agent
dictionaries. -/
theorem get_obs_rewards_deterministic (env : PushEnv) (jsqrt : ℚ → ℚ)
    (s1 s2 : PushState) (p1 p2 : PushParams)
    (hpos : s1.p_pos = s2.p_pos) (hvel : s1.p_vel = s2.p_vel)
    (hgoal : s1.goal = s2.goal) :
    get_obs env s1 p1 = get_obs env s2 p2
    ∧ rewards env jsqrt s1 p1 = rewards env jsqrt s2 p2 := by
  obtain ⟨pos1, vel1, c1, d1, st1, g1⟩ := s1
  obtain ⟨pos2, vel2, c2, d2, st2, g2⟩ := s2
  simp only at hpos hvel hgoal
  subst hpos hvel hgoal
  exact ⟨rfl, rfl⟩

/-- Witness for C7: two states sharing positions, velocities and goal but
differing in communication, dones and step counter. -/
theorem get_obs_rewards_deterministic_witness :
    get_obs (simplePushInit 1 1 2)
        ⟨[(0, 0), (1, 0), (0, 1), (1, 1)], [(0, 0), (0, 0), (0, 0), (0, 0)],
         [(0, 0), (0, 0)], [false, false], 0, 1⟩ ⟨25, 1/4⟩
      = get_obs (simplePushInit 1 1 2)
        ⟨[(0, 0), (1, 0), (0, 1), (1, 1)], [(0, 0), (0, 0), (0, 0), (0, 0)],
         [(1, 1), (1, 1)], [true, true], 7, 1⟩ ⟨30, 1/2⟩ :=
  (get_obs_rewards_deterministic (simplePushInit 1 1 2) id
    ⟨[(0, 0), (1, 0), (0, 1), (1, 1)], [(0, 0), (0, 0), (0, 0), (0, 0)],
     [(0, 0), (0, 0)], [false, false], 0, 1⟩
    ⟨[(0, 0), (1, 0), (0, 1), (1, 1)], [(0, 0), (0, 0), (0, 0), (0, 0)],
     [(1, 1), (1, 1)], [true, true], 7, 1⟩ ⟨25, 1/4⟩ ⟨30, 1/2⟩
    rfl rfl rfl).1

/-- C9: the state returned by `reset_env` has all-zero velocities and
communication vectors, step counter 0, all-false done flags, a goal index
in `[0, num_landmarks)`, agent coordinates in `[-1, 1]` and landmark
coordinates in `[-0.9, 0.9]`, for unit samples in `[0, 1)`. -/
theorem reset_env_spec (env : PushEnv) (uA uL : ℕ → ℕ → ℚ) (kg : ℕ)
    (params : PushParams)
    (hA : ∀ i j, 0 ≤ uA i j ∧ uA i j < 1)
    (hL : ∀ i j, 0 ≤ uL i j ∧ uL i j < 1)
    (hnl : 0 < env.num_landmarks) :
    (reset_env env uA uL kg params).2.p_vel
        = List.replicate env.num_entities (0, 0)
    ∧ (reset_env env uA uL kg params).2.c
        = List.replicate env.num_agents (0, 0)
    ∧ (reset_env env uA uL kg params).2.step = 0
    ∧ (∀ b ∈ (reset_env env uA uL kg params).2.done, b = false)
    ∧ (reset_env env uA uL kg params).2.goal < env.num_landmarks
    ∧ (∀ v ∈ (reset_env env uA uL kg params).2.p_pos.take env.num_agents,
        -1 ≤ v.1 ∧ v.1 ≤ 1 ∧ -1 ≤ v.2 ∧ v.2 ≤ 1)
    ∧ (∀ v ∈ (reset_env env uA uL kg params).2.p_pos.drop env.num_agents,
        -(9/10) ≤ v.1 ∧ v.1 ≤ 9/10 ∧ -(9/10) ≤ v.2 ∧ v.2 ≤ 9/10) := by
  have hlenA : ((List.range env.num_agents).map
      (fun i => (uniformQ (-1) 1 (uA i 0), uniformQ (-1) 1 (uA i 1)))).length
      = env.num_agents := by simp
  refine ⟨rfl, rfl, rfl, ?_, ?_, ?_, ?_⟩
  · intro b hb
    exact List.eq_of_mem_replicate hb
  · exact Nat.mod_lt kg hnl
  · intro v hv
    simp only [reset_env] at hv
    rw [List.take_left' hlenA] at hv
    simp only [List.mem_map, List.mem_range] at hv
    obtain ⟨i, -, rfl⟩ := hv
    obtain ⟨h0, h1⟩ := hA i 0
    obtain ⟨h0', h1'⟩ := hA i 1
    refine ⟨?_, ?_, ?_, ?_⟩ <;> simp only [uniformQ] <;> nlinarith
  · intro v hv
    simp only [reset_env] at hv
    rw [List.drop_left' hlenA] at hv
    simp only [List.mem_map, List.mem_range] at hv
    obtain ⟨i, -, rfl⟩ := hv
    obtain ⟨h0, h1⟩ := hL i 0
    obtain ⟨h0', h1'⟩ := hL i 1
    refine ⟨?_, ?_, ?_, ?_⟩ <;> simp only [uniformQ] <;> nlinarith

/-- Witness for C9: constant unit samples `1/2`, abstract goal draw 5,
on the two-landmark environment. -/
theorem reset_env_spec_witness :
    (∀ i j : ℕ, 0 ≤ ((fun _ _ => (1/2 : ℚ)) i j : ℚ)
        ∧ ((fun _ _ => (1/2 : ℚ)) i j : ℚ) < 1)
    ∧ 0 < (simplePushInit 1 1 2).num_landmarks
    ∧ (reset_env (simplePushInit 1 1 2) (fun _ _ => 1/2) (fun _ _ => 1/2) 5
        ⟨25, 1/4⟩).2.step = 0
    ∧ (reset_env (simplePushInit 1 1 2) (fun _ _ => 1/2) (fun _ _ => 1/2) 5
        ⟨25, 1/4⟩).2.goal < (simplePushInit 1 1 2).num_landmarks := by
  have h := reset_env_spec (simplePushInit 1 1 2) (fun _ _ => 1/2)
    (fun _ _ => 1/2) 5 ⟨25, 1/4⟩ (fun _ _ => by norm_num)
    (fun _ _ => by norm_num) (by decide)
  exact ⟨fun _ _ => by norm_num, by decide, h.2.2.1, h.2.2.2.2.1⟩

/-! ### Error handling in `make_train` and `get_rollout` (C8)

Only the precondition-checking phase of each function is error-relevant:
`make_train` reads `config["DIMS"]` and asserts the two dimension matches
(lines 272-277); `get_rollout` first raises `ValueError` when `"DIMS"` is
missing (lines 155-156) and later asserts the same dimension matches
(lines 172-175).  The remainder of each function raises no error by
design, and nothing in the script catches one. -/

/-- The `config["DIMS"]` dictionary built in `main`. -/
structure DimsQ where
  base_obs_shape : List ℕ
  base_obs_dim : ℕ
  action_dim : ℕ
  augmented_obs_dim : ℕ

/-- The slice of the hydra `config` read by the precondition checks. -/
structure TrainConfig where
  DIMS : Option DimsQ

/-- The environment object returned by `jaxmarl.make`, as read by the
checks: `observation_space().shape` and `action_space().n`. -/
structure EnvHandle where
  obs_shape : List ℕ
  action_n : ℕ

/-- A raised Python exception. -/
inductive PyErr where
  | assertionError (msg : String)
  | valueError (msg : String)
  | keyError (msg : String)
deriving DecidableEq

/-- The precondition phase of `make_train(config)`: `dims = config["DIMS"]`
followed by the two dimension assertions. -/
def makeTrainChecks (config : TrainConfig) (env : EnvHandle) :
    Except PyErr DimsQ :=
  match config.DIMS with
  | none => .error (.keyError "DIMS")
  | some dims =>
    if env.obs_shape.prod ≠ dims.base_obs_dim then
      .error (.assertionError "Observation dimension mismatch")
    else if env.action_n ≠ dims.action_dim then
      .error (.assertionError "Action dimension mismatch")
    else .ok dims

/-- The precondition phase of `get_rollout(train_state, config)`: the
explicit `ValueError` when `"DIMS"` is absent, then the two dimension
assertions against the freshly made environment. -/
def getRolloutChecks (config : TrainConfig) (env : EnvHandle) :
    Except PyErr DimsQ :=
  match config.DIMS with
  | none =>
    .error (.valueError
      "Config is missing DIMS dictionary. Check that dimensions were properly initialized in main()")
  | some dims =>
    if env.obs_shape.prod ≠ dims.base_obs_dim then
      .error (.assertionError "Observation dimension mismatch in rollout")
    else if env.action_n ≠ dims.action_dim then
      .error (.assertionError "Action dimension mismatch in rollout")
    else .ok dims

/-- The training pipeline after the checks: any later stage `rest` runs
only if the checks pass, and a raised error propagates unhandled (the
script contains no handler). -/
def trainPipeline {A : Type} (config : TrainConfig) (env : EnvHandle)
    (rest : DimsQ → Except PyErr A) : Except PyErr A :=
  makeTrainChecks config env >>= rest

/-- C8: `make_train` raises an assertion error exactly when the flattened
observation size differs from `base_obs_dim` or the action-space size
differs from `action_dim`; `get_rollout` raises `ValueError` exactly when
`DIMS` is absent from the config; and an error raised by the checks
propagates through the pipeline with no recovery. -/
theorem error_handling_preconditions {A : Type} (config : TrainConfig)
    (env : EnvHandle) (rest : DimsQ → Except PyErr A) (dims : DimsQ)
    (hdims : config.DIMS = some dims) :
    ((∃ m, makeTrainChecks config env = .error (.assertionError m))
        ↔ env.obs_shape.prod ≠ dims.base_obs_dim
          ∨ env.action_n ≠ dims.action_dim)
    ∧ (∀ cfg : TrainConfig,
        (∃ m, getRolloutChecks cfg env = .error (.valueError m))
          ↔ cfg.DIMS = none)
    ∧ (∀ e, makeTrainChecks config env = .error e
        → trainPipeline config env rest = .error e) := by
  refine ⟨?_, ?_, ?_⟩
  · simp only [makeTrainChecks, hdims]
    by_cases h1 : env.obs_shape.prod = dims.base_obs_dim
    · by_cases h2 : env.action_n = dims.action_dim
      · simp [h1, h2]
      · simp [h1, h2]
    · simp [h1]
  · intro cfg
    cases hc : cfg.DIMS with
    | none => simp [getRolloutChecks, hc]
    | some d =>
      simp only [getRolloutChecks, hc]
      constructor
      · rintro ⟨m, hm⟩
        by_cases h1 : env.obs_shape.prod = d.base_obs_dim
        · by_cases h2 : env.action_n = d.action_dim
          · simp [h1, h2] at hm
          · simp [h1, h2] at hm
        · simp [h1] at hm
      · intro h
        exact absurd h (by simp)
  · intro e he
    simp only [trainPipeline, he]
    rfl

/-- Witness for C8 on a concrete matching configuration. -/
theorem error_handling_preconditions_witness :
    (⟨some ⟨[2, 3], 6, 4, 10⟩⟩ : TrainConfig).DIMS = some ⟨[2, 3], 6, 4, 10⟩
    ∧ (∀ e, makeTrainChecks ⟨some ⟨[2, 3], 6, 4, 10⟩⟩ ⟨[2, 3], 4⟩ = .error e
        → trainPipeline ⟨some ⟨[2, 3], 6, 4, 10⟩⟩ ⟨[2, 3], 4⟩
            (fun d => Except.ok d.action_dim) = .error e) :=
  ⟨rfl, (error_handling_preconditions ⟨some ⟨[2, 3], 6, 4, 10⟩⟩ ⟨[2, 3], 4⟩
    (fun d => Except.ok d.action_dim) ⟨[2, 3], 6, 4, 10⟩ rfl).2.2⟩

/-! ### `Transition` and `_env_step` (C3, C6)

Arrays stored in a `Transition` are modelled by `JTensor` (a scalar, a
vector, or an `(agent, env)` matrix over `ℚ`; booleans enter as `b2q`),
and a pytree leaf position by `JVal`, which is either an array or a
string-keyed dictionary — the distinction Python's `jax.tree` operations
preserve.  The network, the samplers, the PRNG splitting and the
environment step are abstract components (`EnvModel`); the `NUM_ENVS`
axis is a `List`. -/

/-- A JAX numpy array of rank at most 2. -/
inductive JTensor where
  | scalar (q : ℚ)
  | vec (v : List ℚ)
  | mat (m : List (List ℚ))
deriving DecidableEq

/-- A pytree leaf position: an array or a string-keyed dictionary. -/
inductive JVal where
  | arr (t : JTensor)
  | dict (d : List (String × JTensor))
deriving DecidableEq

/-- Whether a stored value is an array (as opposed to a dictionary). -/
def JVal.isArr : JVal → Bool
  | .arr _ => true
  | .dict _ => false

/-- Embedding of `jnp.squeeze` on a rank-2 `(2, NUM_ENVS)` array: removes every axis of
size 1. -/
def squeeze2 (rows : List (List ℚ)) : JTensor :=
  match rows with
  | [r] =>
    match r with
    | [q] => .scalar q
    | _ => .vec r
  | _ =>
    if rows.all (fun r => r.length == 1) then
      .vec (rows.map fun r => r.headD 0)
    else .mat rows

/-- The `Transition` record (its exact six fields). -/
structure Transition where
  done : JVal
  action : JVal
  value : JVal
  reward : JVal
  log_prob : JVal
  obs : JVal

/-- The `Transition(...)` construction at the end of `_env_step` (source
lines 535-545): `done`/`reward` are squeezed stacks `[agent_1, agent_0]`,
`action`/`value`/`log_prob` are unsqueezed stacks `[agent_1, agent_0]`,
and `obs` is the `processed_obs` dictionary keyed `"agent_0"`/`"agent_1"`. -/
def mkTransition (done_1 done_0 : List Bool)
    (action_1 action_0 value_1 value_0 reward_1 reward_0
      log_prob_1 log_prob_0 : List ℚ)
    (agent_0_obs_augmented agent_1_obs_augmented : List (List ℚ)) :
    Transition :=
  { done := .arr (squeeze2 [done_1.map b2q, done_0.map b2q])
    action := .arr (.mat [action_1, action_0])
    value := .arr (.mat [value_1, value_0])
    reward := .arr (squeeze2 [reward_1, reward_0])
    log_prob := .arr (.mat [log_prob_1, log_prob_0])
    obs := .dict [("agent_0", .mat agent_0_obs_augmented),
                  ("agent_1", .mat agent_1_obs_augmented)] }

/-- A dictionary keyed `"agent_0"` / `"agent_1"`. -/
structure AgentPair (α : Type) where
  agent_0 : α
  agent_1 : α

/-- What one (vmapped) `env.step` call returns for a single environment
instance: next observations, next state, rewards, dones and the
`info["shaped_reward"]` entry. -/
structure EnvStepOut (EnvSt : Type) where
  obs : AgentPair (List ℚ)
  st : EnvSt
  reward : AgentPair ℚ
  done : AgentPair Bool
  shaped_reward : AgentPair ℚ

/-- The stacked `info` pytree produced by one `_env_step`, after the line
`info["reward"] = reward["agent_0"]` (which stores the un-annealed
reward). -/
structure StepInfo where
  shaped_reward : AgentPair (List ℚ)
  reward : List ℚ

/-- The `runner_state` tuple
`(train_state, env_state, last_obs, update_step, rng)`. -/
structure Runner (Key EnvSt P : Type) where
  train_params : P
  env_states : List EnvSt
  last_obs : AgentPair (List (List ℚ))
  update_step : ℕ
  rng : Key

/-- The abstract components `_env_step` composes: PRNG splitting, the
shared network applied to one observation row, vectorized sampling and
log-probabilities of `distrax.Categorical`, one environment instance's
step, and the reward-shaping annealing schedule. -/
structure EnvModel (Key EnvSt P : Type) where
  split : Key → Key × Key
  splitN : Key → ℕ → List Key
  applyRow : P → List ℚ → List ℚ × ℚ
  sampleVec : List (List ℚ) → Key → List ℚ
  logProbVec : List (List ℚ) → List ℚ → List ℚ
  stepEnv : Key → EnvSt → ℚ × ℚ → EnvStepOut EnvSt
  anneal : ℕ → ℚ

/-- The config entries `_env_step` reads. -/
structure StepConfig where
  NUM_STEPS : ℕ
  NUM_ENVS : ℕ
  action_n : ℕ

/-- Embedding of `jax.nn.one_hot(a, n)` for one action. -/
def oneHot (n : ℕ) (a : ℚ) : List ℚ :=
  (List.range n).map fun j => if (j : ℚ) = a then 1 else 0

/-- Pointwise zip of three lists. -/
def zipWith3 {α β γ δ : Type} (f : α → β → γ → δ) :
    List α → List β → List γ → List δ
  | a :: as, b :: bs, c :: cs => f a b c :: zipWith3 f as bs cs
  | _, _, _ => []

/-- Embedding of `_env_step(runner_state, unused)`: augments `agent_1`'s observation
with a zero action vector, samples its action, augments `agent_0`'s
observation with the one-hot of that action, samples `agent_0`'s action
(the source reuses the same `_rng` seed for both samples), steps every
environment instance, anneals the shaped reward into the reward, builds
the `Transition`, and returns the updated runner state together with the
tuple `(transition, info, processed_obs)`. -/
def envStep {Key EnvSt P : Type} (cfg : StepConfig) (M : EnvModel Key EnvSt P)
    (rs : Runner Key EnvSt P) :
    Runner Key EnvSt P
      × (Transition × StepInfo × AgentPair (List (List ℚ))) :=
  let s1 := M.split rs.rng
  let rng := s1.1
  let _rng := s1.2
  let agent_0_obs := rs.last_obs.agent_0
  let agent_1_obs := rs.last_obs.agent_1
  let zero_action := List.replicate cfg.action_n (0 : ℚ)
  let agent_1_obs_augmented := agent_1_obs.map (· ++ zero_action)
  let outs_1 := agent_1_obs_augmented.map (M.applyRow rs.train_params)
  let value_1 := outs_1.map Prod.snd
  let action_1 := M.sampleVec (outs_1.map Prod.fst) _rng
  let log_prob_1 := M.logProbVec (outs_1.map Prod.fst) action_1
  let one_hot_action := action_1.map (oneHot cfg.action_n)
  let agent_0_obs_augmented := List.zipWith (· ++ ·) agent_0_obs one_hot_action
  let outs_0 := agent_0_obs_augmented.map (M.applyRow rs.train_params)
  let value_0 := outs_0.map Prod.snd
  let action_0 := M.sampleVec (outs_0.map Prod.fst) _rng
  let log_prob_0 := M.logProbVec (outs_0.map Prod.fst) action_0
  let s2 := M.split rng
  let rng_step := M.splitN s2.2 cfg.NUM_ENVS
  let stepOuts :=
    zipWith3 (fun k st a => M.stepEnv k st a) rng_step rs.env_states
      (List.zip action_0 action_1)
  let obsv : AgentPair (List (List ℚ)) :=
    ⟨stepOuts.map (·.obs.agent_0), stepOuts.map (·.obs.agent_1)⟩
  let reward_0 := stepOuts.map (·.reward.agent_0)
  let reward_1 := stepOuts.map (·.reward.agent_1)
  let done_0 := stepOuts.map (·.done.agent_0)
  let done_1 := stepOuts.map (·.done.agent_1)
  let shaped_0 := stepOuts.map (·.shaped_reward.agent_0)
  let shaped_1 := stepOuts.map (·.shaped_reward.agent_1)
  let info : StepInfo := ⟨⟨shaped_0, shaped_1⟩, reward_0⟩
  let current_timestep := rs.update_step * cfg.NUM_STEPS * cfg.NUM_ENVS
  let reward_0' := List.zipWith
    (fun x y => x + y * M.anneal current_timestep) reward_0 shaped_0
  let reward_1' := List.zipWith
    (fun x y => x + y * M.anneal current_timestep) reward_1 shaped_1
  let transition := mkTransition done_1 done_0 action_1 action_0 value_1
    value_0 reward_1' reward_0' log_prob_1 log_prob_0
    agent_0_obs_augmented agent_1_obs_augmented
  let rs' : Runner Key EnvSt P :=
    { train_params := rs.train_params
      env_states := stepOuts.map (·.st)
      last_obs := obsv
      update_step := rs.update_step
      rng := s2.1 }
  (rs', (transition, info, ⟨agent_0_obs_augmented, agent_1_obs_augmented⟩))

/-- The trajectory-collection phase: `jax.lax.scan(_env_step, runner_state,
None, config["NUM_STEPS"])`. -/
def collectPhase {Key EnvSt P : Type} (cfg : StepConfig)
    (M : EnvModel Key EnvSt P) (rs : Runner Key EnvSt P) :
    Runner Key EnvSt P
      × List (Transition × StepInfo × AgentPair (List (List ℚ))) :=
  lax_scan_unit (envStep cfg M) rs cfg.NUM_STEPS

/-- One component of the stacked per-step output tuple of the scan. -/
inductive CollectOut where
  | transitions (ts : List Transition)
  | infos (xs : List StepInfo)
  | obs_seq (os : List (AgentPair (List (List ℚ))))

/-- The stacked `ys` of the collection scan, as the Python tuple it is:
`jax.lax.scan` stacks each component of `_env_step`'s per-step output
`(transition, info, processed_obs)`, so the result is a 3-tuple. -/
def stackedYs
    (ys : List (Transition × StepInfo × AgentPair (List (List ℚ)))) :
    List CollectOut :=
  [.transitions (ys.map (·.1)), .infos (ys.map (·.2.1)),
   .obs_seq (ys.map (·.2.2))]

/-- Python tuple destructuring `a, b = t`. -/
def pyUnpack2 {α : Type} : List α → Except String (α × α)
  | [a, b] => .ok (a, b)
  | l =>
    .error (if l.length < 2 then
        "ValueError: not enough values to unpack (expected 2)"
      else "ValueError: too many values to unpack (expected 2)")

/-- The carry of a scan after `t` steps. -/
def scanCarry {C Y : Type} (f : C → C × Y) (c : C) : ℕ → C
  | 0 => c
  | n + 1 => scanCarry f (f c).1 n

/-- The outputs of `lax_scan_unit` are the step function applied to the
successive carries. -/
theorem lax_scan_unit_eq_map_range {C Y : Type} (f : C → C × Y) (c : C)
    (n : ℕ) :
    (lax_scan_unit f c n).2
      = (List.range n).map fun t => (f (scanCarry f c t)).2 := by
  induction n generalizing c with
  | zero => rfl
  | succ n ih =>
    rw [List.range_succ_eq_map]
    simp only [lax_scan_unit, List.map_cons, List.map_map]
    exact congrArg _ (by rw [ih]; rfl)

/-- C3: the collection phase iterates `_env_step` exactly `NUM_STEPS`
times (the outputs are the step function applied to the successive
carries), producing `NUM_STEPS` stacked transitions — but the per-step
output of `_env_step` is the 3-tuple `(transition, info, processed_obs)`,
so the destructuring `runner_state, (traj_batch, info) = jax.lax.scan(...)`
of its stacked result raises `ValueError` instead of yielding the
trajectory batch alongside the final runner state. -/
theorem collectPhase_unroll_and_unpack_mismatch {Key EnvSt P : Type}
    (cfg : StepConfig) (M : EnvModel Key EnvSt P) (rs : Runner Key EnvSt P) :
    (collectPhase cfg M rs).2
        = ((List.range cfg.NUM_STEPS).map fun t =>
            (envStep cfg M (scanCarry (envStep cfg M) rs t)).2)
    ∧ ((collectPhase cfg M rs).2.map (·.1)).length = cfg.NUM_STEPS
    ∧ pyUnpack2 (stackedYs (collectPhase cfg M rs).2)
        = .error "ValueError: too many values to unpack (expected 2)" := by
  refine ⟨?_, ?_, rfl⟩
  · exact lax_scan_unit_eq_map_range (envStep cfg M) rs cfg.NUM_STEPS
  · simp [collectPhase, lax_scan_unit_length]

/-- Squeezing a two-row array is the identity when the first row is not
of unit length. -/
theorem squeeze2_eq_mat (r1 r0 : List ℚ) (h1 : ¬r1.length = 1) :
    squeeze2 [r1, r0] = .mat [r1, r0] := by
  have hb : (r1.length == 1) = false := by simpa using h1
  simp [squeeze2, hb]

/-- C6 counterexample: the claim calls all six stacked `Transition` fields
arrays indexed by `(time, agent, environment instance)`, but the `obs`
field of every transition built by `_env_step` is a dictionary keyed by
agent name, not an array — here evaluated at a concrete one-environment
step. -/
theorem transition_obs_is_dict_not_array :
    (JVal.isArr (mkTransition [false] [false] [0] [0] [1] [1] [0] [0] [0] [0]
      [[0]] [[0]]).obs) = false := rfl

/-- C6 (amended): every transition stores exactly the six fields; with at
least two environment instances, the five fields `done`, `action`,
`value`, `reward`, `log_prob` are `(agent, env)` arrays whose agent index
0 holds `agent_1`'s and index 1 holds `agent_0`'s per-environment step
values (`done`/`reward` squeezed, which is the identity here), while
`obs` is a dictionary mapping `"agent_0"`/`"agent_1"` to the agents'
augmented observation arrays. -/
theorem transition_field_layout (E : ℕ) (hE : 2 ≤ E)
    (done_1 done_0 : List Bool)
    (action_1 action_0 value_1 value_0 reward_1 reward_0
      log_prob_1 log_prob_0 : List ℚ)
    (obs_aug_0 obs_aug_1 : List (List ℚ))
    (hd1 : done_1.length = E) (hd0 : done_0.length = E)
    (hr1 : reward_1.length = E) (hr0 : reward_0.length = E) :
    (mkTransition done_1 done_0 action_1 action_0 value_1 value_0 reward_1
        reward_0 log_prob_1 log_prob_0 obs_aug_0 obs_aug_1).done
        = .arr (.mat [done_1.map b2q, done_0.map b2q])
    ∧ (mkTransition done_1 done_0 action_1 action_0 value_1 value_0 reward_1
        reward_0 log_prob_1 log_prob_0 obs_aug_0 obs_aug_1).action
        = .arr (.mat [action_1, action_0])
    ∧ (mkTransition done_1 done_0 action_1 action_0 value_1 value_0 reward_1
        reward_0 log_prob_1 log_prob_0 obs_aug_0 obs_aug_1).value
        = .arr (.mat [value_1, value_0])
    ∧ (mkTransition done_1 done_0 action_1 action_0 value_1 value_0 reward_1
        reward_0 log_prob_1 log_prob_0 obs_aug_0 obs_aug_1).reward
        = .arr (.mat [reward_1, reward_0])
    ∧ (mkTransition done_1 done_0 action_1 action_0 value_1 value_0 reward_1
        reward_0 log_prob_1 log_prob_0 obs_aug_0 obs_aug_1).log_prob
        = .arr (.mat [log_prob_1, log_prob_0])
    ∧ (mkTransition done_1 done_0 action_1 action_0 value_1 value_0 reward_1
        reward_0 log_prob_1 log_prob_0 obs_aug_0 obs_aug_1).obs
        = .dict [("agent_0", .mat obs_aug_0), ("agent_1", .mat obs_aug_1)] := by
  refine ⟨?_, rfl, rfl, ?_, rfl, rfl⟩
  · have h1 : ¬(done_1.map b2q).length = 1 := by simp [hd1]; omega
    simp only [mkTransition]
    rw [squeeze2_eq_mat _ _ h1]
  · have h1 : ¬reward_1.length = 1 := by omega
    simp only [mkTransition]
    rw [squeeze2_eq_mat _ _ h1]

/-- Witness for C6's amended layout theorem at two environment
instances. -/
theorem transition_field_layout_witness :
    (2 : ℕ) ≤ 2
    ∧ (mkTransition [false, true] [true, false] [1, 2] [3, 4] [5, 6] [7, 8]
        [9, 10] [11, 12] [13, 14] [15, 16] [[1], [2]] [[3], [4]]).reward
        = .arr (.mat [[9, 10], [11, 12]]) :=
  ⟨by decide,
    (transition_field_layout 2 (by decide) [false, true] [true, false] [1, 2]
      [3, 4] [5, 6] [7, 8] [9, 10] [11, 12] [13, 14] [15, 16] [[1], [2]]
      [[3], [4]] rfl rfl rfl rfl).2.2.2.1⟩

/-! ### `_update_epoch` (C4)

Arrays here are `JArr`: an explicit shape together with row-major flattened
data, so that `jnp.reshape`'s size check is part of the model.  The leaves
of the collected batch pytree are the five stacked `Transition` array
fields (leading axes `(NUM_STEPS, 2, NUM_ENVS)`, with `done`/`reward`
squeezed to `(NUM_STEPS, 2)` when `NUM_ENVS = 1`), the two entries of the
`obs` dictionary (leading axes `(NUM_STEPS, NUM_ENVS)`), and the advantage
and target arrays (shaped like `value`).  `_update_minbatch` (whose loss
internals are the subject of C2) is an abstract parameter `upd`,
`jax.random.permutation` an abstract parameter `permFn`, PRNG splitting an
abstract `split`. -/

/-- The config entries `_update_epoch` reads. -/
structure UpdateConfig where
  NUM_STEPS : ℕ
  NUM_ACTORS : ℕ
  NUM_MINIBATCHES : ℕ
  MINIBATCH_SIZE : ℕ
  UPDATE_EPOCHS : ℕ

/-- A JAX numpy array: its shape and its row-major flattened data. -/
structure JArr (α : Type) where
  shape : List ℕ
  data : List α

/-- The message of the `ValueError` numpy raises when a reshape target's
size differs from the array's size (specific sizes elided). -/
def reshapeSizeMsg : String := "ValueError: cannot reshape array"

/-- The message of the failed `assert` inside `_update_epoch`. -/
def batchAssertMsg : String :=
  "AssertionError: batch size must be equal to number of steps * number of actors"

/-- Embedding of `jnp.reshape(x, s)` for an explicit target shape `s`:
succeeds iff the target size equals the array size. -/
def reshapeTo {α : Type} (a : JArr α) (s : List ℕ) : Except String (JArr α) :=
  if s.prod = a.shape.prod then .ok ⟨s, a.data⟩ else .error reshapeSizeMsg

/-- Embedding of `x.reshape((batch_size,) + x.shape[2:])`, the per-leaf
flatten inside `_update_epoch`. -/
def reshapeLead {α : Type} (batch_size : ℕ) (a : JArr α) :
    Except String (JArr α) :=
  reshapeTo a (batch_size :: a.shape.drop 2)

/-- The leaves of the `traj_batch` pytree: the five array fields of the
stacked `Transition` and the two entries of its `obs` dictionary. -/
structure TrajLeaves where
  done : JArr ℚ
  action : JArr ℚ
  value : JArr ℚ
  reward : JArr ℚ
  log_prob : JArr ℚ
  obs_agent_0 : JArr ℚ
  obs_agent_1 : JArr ℚ

/-- The tree-mapped flatten `jax.tree_map(lambda x:
x.reshape((batch_size,) + x.shape[2:]), batch)` over
`batch = (traj_batch, advantages, targets)`: the first leaf whose reshape
fails raises. -/
def flattenBatch (batch_size : ℕ) (tb : TrajLeaves) (adv tgt : JArr ℚ) :
    Except String (TrajLeaves × JArr ℚ × JArr ℚ) :=
  (reshapeLead batch_size tb.done).bind fun d =>
  (reshapeLead batch_size tb.action).bind fun a =>
  (reshapeLead batch_size tb.value).bind fun v =>
  (reshapeLead batch_size tb.reward).bind fun r =>
  (reshapeLead batch_size tb.log_prob).bind fun lp =>
  (reshapeLead batch_size tb.obs_agent_0).bind fun o0 =>
  (reshapeLead batch_size tb.obs_agent_1).bind fun o1 =>
  (reshapeLead batch_size adv).bind fun ad =>
  (reshapeLead batch_size tgt).bind fun tg =>
  .ok (⟨d, a, v, r, lp, o0, o1⟩, ad, tg)

/-- Size of one row (one index of the leading axis) of an array. -/
def rowSize {α : Type} (a : JArr α) : ℕ := (a.shape.drop 1).prod

/-- The `i`-th row of an array's row-major data. -/
def rowSlice {α : Type} (a : JArr α) (i : ℕ) : List α :=
  (a.data.drop (i * rowSize a)).take (rowSize a)

/-- Embedding of `jnp.take(x, idx, axis=0)`. -/
def jtakeArr {α : Type} (a : JArr α) (idx : List ℕ) : JArr α :=
  ⟨idx.length :: a.shape.drop 1, idx.flatMap (rowSlice a)⟩

/-- Embedding of `jnp.reshape(x, [m, -1] + list(x.shape[1:]))`: the `-1`
axis is inferred, failing when the known dimensions do not divide the
size. -/
def reshapeMB {α : Type} (m : ℕ) (a : JArr α) : Except String (JArr α) :=
  let known := m * (a.shape.drop 1).prod
  if known ≠ 0 ∧ a.shape.prod % known = 0 then
    .ok ⟨m :: (a.shape.prod / known) :: a.shape.drop 1, a.data⟩
  else .error reshapeSizeMsg

/-- One index of the leading axis of an array, as passed to a scanned
body. -/
def sliceLead {α : Type} (a : JArr α) (i : ℕ) : JArr α :=
  ⟨a.shape.drop 1, rowSlice a i⟩

/-- The shuffle `jax.tree.map(lambda x: jnp.take(x, permutation, axis=0),
batch)`. -/
def shuffleBatch (idx : List ℕ) (b : TrajLeaves × JArr ℚ × JArr ℚ) :
    TrajLeaves × JArr ℚ × JArr ℚ :=
  (⟨jtakeArr b.1.done idx, jtakeArr b.1.action idx, jtakeArr b.1.value idx,
    jtakeArr b.1.reward idx, jtakeArr b.1.log_prob idx,
    jtakeArr b.1.obs_agent_0 idx, jtakeArr b.1.obs_agent_1 idx⟩,
   jtakeArr b.2.1 idx, jtakeArr b.2.2 idx)

/-- The minibatch partition `jax.tree.map(lambda x: jnp.reshape(x,
[NUM_MINIBATCHES, -1] + list(x.shape[1:])), shuffled_batch)`. -/
def minibatchBatch (m : ℕ) (b : TrajLeaves × JArr ℚ × JArr ℚ) :
    Except String (TrajLeaves × JArr ℚ × JArr ℚ) :=
  (reshapeMB m b.1.done).bind fun d =>
  (reshapeMB m b.1.action).bind fun a =>
  (reshapeMB m b.1.value).bind fun v =>
  (reshapeMB m b.1.reward).bind fun r =>
  (reshapeMB m b.1.log_prob).bind fun lp =>
  (reshapeMB m b.1.obs_agent_0).bind fun o0 =>
  (reshapeMB m b.1.obs_agent_1).bind fun o1 =>
  (reshapeMB m b.2.1).bind fun ad =>
  (reshapeMB m b.2.2).bind fun tg =>
  .ok (⟨d, a, v, r, lp, o0, o1⟩, ad, tg)

/-- The `i`-th minibatch: one leading index of every leaf, as
`jax.lax.scan` passes it to `_update_minbatch`. -/
def sliceBatch (b : TrajLeaves × JArr ℚ × JArr ℚ) (i : ℕ) :
    TrajLeaves × JArr ℚ × JArr ℚ :=
  (⟨sliceLead b.1.done i, sliceLead b.1.action i, sliceLead b.1.value i,
    sliceLead b.1.reward i, sliceLead b.1.log_prob i,
    sliceLead b.1.obs_agent_0 i, sliceLead b.1.obs_agent_1 i⟩,
   sliceLead b.2.1 i, sliceLead b.2.2 i)

/-- The `update_state` tuple
`(train_state, traj_batch, advantages, targets, rng)`. -/
structure UpdState (Key S : Type) where
  train_state : S
  traj_batch : TrajLeaves
  advantages : JArr ℚ
  targets : JArr ℚ
  rng : Key

/-- Embedding of `jax.lax.scan` whose body may raise (the Python `assert`
and the reshapes inside `_update_epoch`); a raised error aborts the whole
scan. -/
def scanE {C E Y : Type} (f : C → Except E (C × Y)) :
    C → ℕ → Except E (C × List Y)
  | c, 0 => .ok (c, [])
  | c, n + 1 =>
    match f c with
    | .error e => .error e
    | .ok (c', y) =>
      match scanE f c' n with
      | .error e => .error e
      | .ok (c'', ys) => .ok (c'', y :: ys)

/-- Embedding of `_update_epoch(update_state, unused)`: asserts the
batch-size identity, applies the tree-mapped flatten-reshape (which may
raise), shuffles every leaf with the same permutation, partitions into
minibatches (a reshape that may raise), and scans `_update_minbatch` over
the minibatch axis. -/
def update_epoch {Key S L : Type} (cfg : UpdateConfig)
    (split : Key → Key × Key) (permFn : Key → ℕ → List ℕ)
    (upd : S → TrajLeaves × JArr ℚ × JArr ℚ → S × L)
    (us : UpdState Key S) : Except String (UpdState Key S × List L) :=
  let _rng := (split us.rng).2
  let batch_size := cfg.MINIBATCH_SIZE * cfg.NUM_MINIBATCHES
  if batch_size = cfg.NUM_STEPS * cfg.NUM_ACTORS then
    match flattenBatch batch_size us.traj_batch us.advantages us.targets with
    | .error e => .error e
    | .ok batch =>
      let permutation := permFn _rng batch_size
      let shuffled_batch := shuffleBatch permutation batch
      match minibatchBatch cfg.NUM_MINIBATCHES shuffled_batch with
      | .error e => .error e
      | .ok minibatches =>
        let r := lax_scan_list upd us.train_state
          ((List.range cfg.NUM_MINIBATCHES).map (sliceBatch minibatches))
        .ok ({ us with train_state := r.1, rng := (split us.rng).1 }, r.2)
  else .error batchAssertMsg

/-- Embedding of `jax.lax.scan(_update_epoch, update_state, None,
config["UPDATE_EPOCHS"])`. -/
def updatePhase {Key S L : Type} (cfg : UpdateConfig)
    (split : Key → Key × Key) (permFn : Key → ℕ → List ℕ)
    (upd : S → TrajLeaves × JArr ℚ × JArr ℚ → S × L)
    (us : UpdState Key S) : Except String (UpdState Key S × List (List L)) :=
  scanE (update_epoch cfg split permFn upd) us cfg.UPDATE_EPOCHS

/-- Shape of one step's `jnp.array([x_1, x_0]).squeeze()` over `E`
environment instances: `(2, E)`, squeezed to `(2,)` when `E = 1`. -/
def sq2Shape (E : ℕ) : List ℕ := if E = 1 then [2] else [2, E]

/-- An array of a given shape with data drawn from an abstract cell
function. -/
def arrOfShape (s : List ℕ) (f : ℕ → ℚ) : JArr ℚ :=
  ⟨s, (List.range s.prod).map f⟩

/-- The trajectory pytree the collection scan stacks: every per-step
`Transition` leaf gains a leading time axis of length `T = NUM_STEPS`, so
with `E = NUM_ENVS` instances the five array fields have shapes
`(T, 2, E)` (`done`/`reward` squeezed to `(T, 2)` when `E = 1`) and the
two `obs` dictionary entries have shapes `(T, E, aug)` for the augmented
observation length `aug`. -/
def stackedTrajLeaves (T E aug : ℕ) (fd fa fv fr fl fo0 fo1 : ℕ → ℚ) :
    TrajLeaves :=
  { done := arrOfShape (T :: sq2Shape E) fd
    action := arrOfShape [T, 2, E] fa
    value := arrOfShape [T, 2, E] fv
    reward := arrOfShape (T :: sq2Shape E) fr
    log_prob := arrOfShape [T, 2, E] fl
    obs_agent_0 := arrOfShape [T, E, aug] fo0
    obs_agent_1 := arrOfShape [T, E, aug] fo1 }

theorem reshapeLead_ok {α : Type} (bs : ℕ) (a : JArr α)
    (h : (bs :: a.shape.drop 2).prod = a.shape.prod) :
    reshapeLead bs a = .ok ⟨bs :: a.shape.drop 2, a.data⟩ := by
  unfold reshapeLead reshapeTo
  rw [if_pos h]

theorem reshapeLead_error {α : Type} (bs : ℕ) (a : JArr α)
    (h : ¬(bs :: a.shape.drop 2).prod = a.shape.prod) :
    reshapeLead bs a = .error reshapeSizeMsg := by
  unfold reshapeLead reshapeTo
  rw [if_neg h]

theorem scanE_error {C E Y : Type} (f : C → Except E (C × Y)) (c : C)
    (n : ℕ) (e : E) (h : f c = .error e) :
    scanE f c (n + 1) = .error e := by
  simp [scanE, h]

/-- C4 (evaluating the code at its failing input): the epoch's `assert`
aborts exactly when `MINIBATCH_SIZE * NUM_MINIBATCHES` differs from
`NUM_STEPS * NUM_ACTORS`; but on the collected batch the program actually
builds — leaves with leading axes `(NUM_STEPS, 2, NUM_ENVS)` and `obs`
dictionary leaves with leading axes `(NUM_STEPS, NUM_ENVS)` — the
tree-mapped `x.reshape((batch_size,) + x.shape[2:])` raises a
size-mismatch `ValueError` for every configuration (the `(T, 2, E)` leaves
fail for `E ≥ 2`, the `obs` leaves fail for every `E`), so no epoch ever
flattens, shuffles, partitions or updates: `_update_epoch` and the
`UPDATE_EPOCHS`-fold scan both raise. -/
theorem update_epoch_reshape_size_mismatch {Key S L : Type}
    (cfg : UpdateConfig) (split : Key → Key × Key)
    (permFn : Key → ℕ → List ℕ)
    (upd : S → TrajLeaves × JArr ℚ × JArr ℚ → S × L) (us : UpdState Key S)
    (T E aug : ℕ) (hT1 : 1 ≤ T) (hE1 : 1 ≤ E) (haug1 : 1 ≤ aug)
    (hNS : cfg.NUM_STEPS = T) (hNA : cfg.NUM_ACTORS = 2 * E)
    (hBS : cfg.MINIBATCH_SIZE * cfg.NUM_MINIBATCHES
      = cfg.NUM_STEPS * cfg.NUM_ACTORS)
    (hdone : us.traj_batch.done.shape = T :: sq2Shape E)
    (hact : us.traj_batch.action.shape = [T, 2, E])
    (hval : us.traj_batch.value.shape = [T, 2, E])
    (hrew : us.traj_batch.reward.shape = T :: sq2Shape E)
    (hlp : us.traj_batch.log_prob.shape = [T, 2, E])
    (hobs0 : us.traj_batch.obs_agent_0.shape = [T, E, aug]) :
    flattenBatch (cfg.MINIBATCH_SIZE * cfg.NUM_MINIBATCHES) us.traj_batch
        us.advantages us.targets = .error reshapeSizeMsg
    ∧ update_epoch cfg split permFn upd us = .error reshapeSizeMsg
    ∧ (∀ (cfg' : UpdateConfig) (us' : UpdState Key S),
        ¬(cfg'.MINIBATCH_SIZE * cfg'.NUM_MINIBATCHES
            = cfg'.NUM_STEPS * cfg'.NUM_ACTORS) →
        update_epoch cfg' split permFn upd us' = .error batchAssertMsg)
    ∧ (1 ≤ cfg.UPDATE_EPOCHS →
        updatePhase cfg split permFn upd us = .error reshapeSizeMsg) := by
  have hbs : cfg.MINIBATCH_SIZE * cfg.NUM_MINIBATCHES = T * (2 * E) := by
    rw [hBS, hNS, hNA]
  have hflat : flattenBatch (cfg.MINIBATCH_SIZE * cfg.NUM_MINIBATCHES)
      us.traj_batch us.advantages us.targets = .error reshapeSizeMsg := by
    rw [hbs]
    by_cases hE : E = 1
    · subst hE
      simp only [sq2Shape, if_pos rfl] at hdone hrew
      have c1 : (T * (2 * 1) :: us.traj_batch.done.shape.drop 2).prod
          = us.traj_batch.done.shape.prod := by
        rw [hdone]; simp
      have c2 : (T * (2 * 1) :: us.traj_batch.action.shape.drop 2).prod
          = us.traj_batch.action.shape.prod := by
        rw [hact]; simp
      have c3 : (T * (2 * 1) :: us.traj_batch.value.shape.drop 2).prod
          = us.traj_batch.value.shape.prod := by
        rw [hval]; simp
      have c4 : (T * (2 * 1) :: us.traj_batch.reward.shape.drop 2).prod
          = us.traj_batch.reward.shape.prod := by
        rw [hrew]; simp
      have c5 : (T * (2 * 1) :: us.traj_batch.log_prob.shape.drop 2).prod
          = us.traj_batch.log_prob.shape.prod := by
        rw [hlp]; simp
      have c6 : ¬(T * (2 * 1) :: us.traj_batch.obs_agent_0.shape.drop 2).prod
          = us.traj_batch.obs_agent_0.shape.prod := by
        rw [hobs0]
        simp only [List.drop_succ_cons, List.drop_zero, List.prod_cons,
          List.prod_nil, mul_one]
        intro h
        nlinarith [Nat.mul_pos hT1 haug1]
      simp only [flattenBatch, reshapeLead_ok _ _ c1, reshapeLead_ok _ _ c2,
        reshapeLead_ok _ _ c3, reshapeLead_ok _ _ c4, reshapeLead_ok _ _ c5,
        reshapeLead_error _ _ c6, Except.bind]
    · have hE2 : 2 ≤ E := by omega
      simp only [sq2Shape, if_neg hE] at hdone
      have c1 : ¬(T * (2 * E) :: us.traj_batch.done.shape.drop 2).prod
          = us.traj_batch.done.shape.prod := by
        rw [hdone]
        simp only [List.drop_succ_cons, List.drop_zero, List.prod_cons,
          List.prod_nil, mul_one]
        intro h
        nlinarith [Nat.mul_pos hT1 (Nat.mul_pos (by omega : 0 < 2) hE1)]
      simp only [flattenBatch, reshapeLead_error _ _ c1, Except.bind]
  have hupd : update_epoch cfg split permFn upd us = .error reshapeSizeMsg := by
    unfold update_epoch
    dsimp only
    rw [if_pos hBS, hflat]
  refine ⟨hflat, hupd, ?_, ?_⟩
  · intro cfg' us' hne
    unfold update_epoch
    dsimp only
    rw [if_neg hne]
  · intro hUE
    unfold updatePhase
    cases hUE' : cfg.UPDATE_EPOCHS with
    | zero => omega
    | succ n => exact scanE_error _ _ _ _ hupd

/-- Witness for C4 at the smallest configuration (`NUM_STEPS = 1`,
`NUM_ENVS = 1`, `NUM_ACTORS = 2`, `MINIBATCH_SIZE = 2`,
`NUM_MINIBATCHES = 1`, augmented observation length 1): the assert passes
but the epoch raises the reshape `ValueError`. -/
theorem update_epoch_reshape_size_mismatch_witness :
    (⟨1, 2, 1, 2, 1⟩ : UpdateConfig).MINIBATCH_SIZE
        * (⟨1, 2, 1, 2, 1⟩ : UpdateConfig).NUM_MINIBATCHES
        = (⟨1, 2, 1, 2, 1⟩ : UpdateConfig).NUM_STEPS
            * (⟨1, 2, 1, 2, 1⟩ : UpdateConfig).NUM_ACTORS
    ∧ ((⟨0, stackedTrajLeaves 1 1 1 (fun _ => 0) (fun _ => 0) (fun _ => 0)
          (fun _ => 0) (fun _ => 0) (fun _ => 0) (fun _ => 0),
        arrOfShape [1, 2, 1] (fun _ => 0), arrOfShape [1, 2, 1] (fun _ => 0),
        0⟩ : UpdState ℕ ℕ).traj_batch.obs_agent_0.shape = [1, 1, 1])
    ∧ update_epoch ⟨1, 2, 1, 2, 1⟩ (fun k => (k, k + 1))
        (fun _ n => List.range n) (fun s _ => (s, (0 : ℚ)))
        ⟨0, stackedTrajLeaves 1 1 1 (fun _ => 0) (fun _ => 0) (fun _ => 0)
          (fun _ => 0) (fun _ => 0) (fun _ => 0) (fun _ => 0),
        arrOfShape [1, 2, 1] (fun _ => 0), arrOfShape [1, 2, 1] (fun _ => 0),
        0⟩ = .error reshapeSizeMsg := by
  refine ⟨by decide, rfl, ?_⟩
  exact (update_epoch_reshape_size_mismatch ⟨1, 2, 1, 2, 1⟩
    (fun k => (k, k + 1)) (fun _ n => List.range n) (fun s _ => (s, (0 : ℚ)))
    ⟨0, stackedTrajLeaves 1 1 1 (fun _ => 0) (fun _ => 0) (fun _ => 0)
      (fun _ => 0) (fun _ => 0) (fun _ => 0) (fun _ => 0),
    arrOfShape [1, 2, 1] (fun _ => 0), arrOfShape [1, 2, 1] (fun _ => 0), 0⟩
    1 1 1 (by decide) (by decide) (by decide) rfl (by decide) (by decide)
    rfl rfl rfl rfl rfl rfl).2.1

end JaxMarl
